import Mathlib

/-!
Verification development for the Saudi-Retail-Demand-Forecasting repository.

The repository consists of a single exploratory notebook
(`src/notebooks/Retail-Forcasting.ipynb`) plus a README.  The notebook calls
three modules (`src.config_loader.get_config`, `src.load_data.DataLoader`,
`src.explore_data.DataExplorer`) whose implementations are not among the
supplied sources; the notebook records their observable behaviour (the
configuration mapping returned by `get_config`, the loader diagnostic
messages, and every profiling report printed by `explore_data`).

This file therefore has two layers:
* recorded data: the concrete outputs captured in the notebook output
  cells, transcribed verbatim (apostrophes written as the escape \x27);
* modelled operations: the missing loader/explorer operations, modelled
  from the description in the spec of their contracts, over a simple frame of
  optional string cells.
-/

namespace RetailForecast

/-! ### Configuration recorded in the notebook (`get_config()` output cell) -/

/-- `config["data"]["raw_dir"]` as recorded in the notebook. -/
def configDataRawDir : String := "../data/raw/saudi_store_sales_dataset.csv"

/-- `config["spark"]["app_name"]` as recorded in the notebook. -/
def configSparkAppName : String := "RetailForecast"

/-! ### Data Loader diagnostics recorded in the notebook (`loader.load_csv` output cell) -/

/-- The app name that appears in the recorded session-creation message of the loader. -/
def recordedLoaderAppName : String := "Saudi Retail Demand Forecasting"

/-- The source path that appears in the recorded loading message of the loader. -/
def recordedLoaderPath : String := "../data/raw/saudi_store_sales_dataset.csv"

/-- The two diagnostic lines printed by `loader.load_csv(config["data"]["raw_dir"])`,
exactly as recorded in the notebook (including the "Spart" typo). -/
def recordedLoaderMessages : List String :=
  ["Spart Session created with app name: Saudi Retail Demand Forecasting",
   "Loading CSV file from: ../data/raw/saudi_store_sales_dataset.csv"]

/-! ### Tabular frame model -/

/-- A cell of the tabular dataset: `none` is a missing value. -/
abbrev Cell := Option String

/-- An in-memory tabular dataset: a header of column names and a list of rows. -/
structure Frame where
  header : List String
  rows : List (List Cell)

/-- Structural splitter on commas over a character list (used in place of the
delimited-file parsing done by the underlying engine). -/
def splitOnComma (cs : List Char) : List (List Char) :=
  match cs with
  | [] => [[]]
  | c :: rest =>
    let r := splitOnComma rest
    if c = ',' then [] :: r
    else
      match r with
      | [] => [[c]]
      | f :: fs => (c :: f) :: fs

/-- Split one delimited line into its fields. -/
def splitLine (s : String) : List String := (splitOnComma s.data).map String.mk

/-- Modelled from the spec: `DataLoader.load_csv` (module `src/load_data`, not
among the supplied sources) "reads a delimited text file into an in-memory
tabular structure".  The first line is the header row; every further line is
one ingested record. -/
def load_csv (lines : List String) : Frame :=
  match lines with
  | [] => { header := [], rows := [] }
  | h :: t => { header := splitLine h, rows := t.map (fun l => (splitLine l).map some) }

/-! ### Modelled Data Explorer reports (module `src/explore_data` is not among
the supplied sources; each report is modelled from the contract in the spec). -/

/-- Modelled from the spec: the row count printed by
`explore_data(overview=True)`. -/
def overviewRowCount (f : Frame) : Nat := f.rows.length

/-- Modelled from the spec: the ordered column-name list printed by
`explore_data(overview=True)`. -/
def overviewColumns (f : Frame) : List String := f.header

/-- Modelled from the spec: the count of missing values in column `j`,
as printed by `explore_data(nulls=True)`. -/
def nullCount (f : Frame) (j : Nat) : Nat :=
  (f.rows.filter (fun r => decide (r.getD j (some "") = none))).length

/-- Modelled from the spec: the per-column null-count report of
`explore_data(nulls=True)`, one count per column. -/
def nullCounts (f : Frame) : List Nat :=
  (List.range f.header.length).map (fun j => nullCount f j)

/-- Modelled from the spec: the count of fully-duplicate rows printed by
`explore_data(duplicates=True)`: total rows minus distinct rows. -/
def duplicateCount (f : Frame) : Nat := f.rows.length - f.rows.dedup.length

/-- Ordering used by the value-count report: descending by frequency. -/
abbrev byCountDesc (a b : Cell × Nat) : Prop := b.2 ≤ a.2

instance : IsTotal (Cell × Nat) byCountDesc := ⟨fun a b => Nat.le_total b.2 a.2⟩

instance : IsTrans (Cell × Nat) byCountDesc := ⟨fun _ _ _ h1 h2 => Nat.le_trans h2 h1⟩

/-- The values of column `j`, one entry per row. -/
def column (f : Frame) (j : Nat) : List Cell :=
  f.rows.map (fun r => r.getD j (some ""))

/-- Modelled from the spec: `explore_data(value_counts=True)` for one column:
the distinct values paired with their frequencies, descending by frequency. -/
def valueCounts (xs : List Cell) : List (Cell × Nat) :=
  List.insertionSort byCountDesc (xs.dedup.map (fun v => (v, xs.count v)))

/-- Modelled from the spec: the displayed part of the value-count table,
truncated to a fixed maximum of 20 rows. -/
def valueCountsDisplayed (xs : List Cell) : List (Cell × Nat) :=
  (valueCounts xs).take 20

/-- The two `BEq Cell` instances in scope (the `Option` one and the one derived
from decidable equality) count identically. -/
lemma count_cell_congr (x : Cell) (l : List Cell) :
    @List.count Cell Option.instBEq x l = @List.count Cell instBEqOfDecidableEq x l := by
  induction l with
  | nil => rfl
  | cons a t ih =>
    simp only [List.count_cons, ih]
    congr 1
    by_cases h : x = a <;> simp [h]

/-! ### Recorded Data Explorer outputs (output cells of the notebook) -/

/-- The fixed 13-column header of the source file, as the spec lists it. -/
def fixedHeader : List String :=
  ["Invoice Date", "Invoice ID", "Customer Type", "Customer Name", "City",
   "Customer Gender", "Employee Name", "Manager Name", "Product Name",
   "Product Category", "Channel", "Customer Satisfaction", "Total Sales"]

/-- Row count printed by `explorer.explore_data(overview=True)` on the sample dataset. -/
def recordedOverviewRows : Nat := 49998

/-- Column list printed by `explorer.explore_data(overview=True)` on the sample dataset. -/
def recordedOverviewColumns : List String :=
  ["Invoice Date", "Invoice ID", "Customer Type", "Customer Name", "City",
   "Customer Gender", "Employee Name", "Manager Name", "Product Name",
   "Product Category", "Channel", "Customer Satisfaction", "Total Sales"]

/-- Column types appearing in the recorded schema report. -/
inductive ColType where
  | string
  | integer
deriving DecidableEq

/-- One line of the recorded schema report: column name, type, nullability. -/
structure SchemaField where
  name : String
  dtype : ColType
  nullable : Bool
deriving DecidableEq

/-- The schema printed by `explorer.explore_data(schema=True)` on the sample dataset. -/
def recordedSchema : List SchemaField :=
  [{ name := "Invoice Date", dtype := ColType.string, nullable := true },
   { name := "Invoice ID", dtype := ColType.string, nullable := true },
   { name := "Customer Type", dtype := ColType.string, nullable := true },
   { name := "Customer Name", dtype := ColType.string, nullable := true },
   { name := "City", dtype := ColType.string, nullable := true },
   { name := "Customer Gender", dtype := ColType.string, nullable := true },
   { name := "Employee Name", dtype := ColType.string, nullable := true },
   { name := "Manager Name", dtype := ColType.string, nullable := true },
   { name := "Product Name", dtype := ColType.string, nullable := true },
   { name := "Product Category", dtype := ColType.string, nullable := true },
   { name := "Channel", dtype := ColType.string, nullable := true },
   { name := "Customer Satisfaction", dtype := ColType.string, nullable := true },
   { name := "Total Sales", dtype := ColType.integer, nullable := true }]

/-- The null-count report printed by `explorer.explore_data(nulls=True)` on the
sample dataset: one (column, count) pair per column, all zero. -/
def recordedNullReport : List (String × Nat) :=
  [("Invoice Date", 0), ("Invoice ID", 0), ("Customer Type", 0),
   ("Customer Name", 0), ("City", 0), ("Customer Gender", 0),
   ("Employee Name", 0), ("Manager Name", 0), ("Product Name", 0),
   ("Product Category", 0), ("Channel", 0), ("Customer Satisfaction", 0),
   ("Total Sales", 0)]

/-- The duplicate-row count printed by `explorer.explore_data(duplicates=True)`. -/
def recordedDuplicateRows : Nat := 0

/-- One column of the recorded summary report (`explore_data(summary=True)`):
the printed statistic strings, `none` where the table shows NULL. -/
structure SummaryCol where
  name : String
  count : Option String
  mean : Option String
  stddev : Option String
  min : Option String
  q25 : Option String
  q50 : Option String
  q75 : Option String
  max : Option String
deriving DecidableEq

/-- The `Total Sales` column of the recorded summary report. -/
def totalSalesSummary : SummaryCol :=
  { name := "Total Sales", count := some "49998", mean := some "1973.11878475139",
    stddev := some "2048.0091336601586", min := some "22", q25 := some "354",
    q50 := some "958", q75 := some "3306", max := some "9700" }

/-- The summary table printed by `explorer.explore_data(summary=True)` on the
sample dataset, column by column (strings exactly as printed, including the
display truncation "Abdullateif AlKha..."). -/
def recordedSummary : List SummaryCol :=
  [{ name := "Invoice Date", count := some "49998", mean := none, stddev := none,
     min := some "1/1/2020", q25 := none, q50 := none, q75 := none, max := some "9/9/2023" },
   { name := "Invoice ID", count := some "49998", mean := none, stddev := none,
     min := some "ID-1", q25 := none, q50 := none, q75 := none, max := some "ID-99997" },
   { name := "Customer Type", count := some "49998", mean := none, stddev := none,
     min := some "Loyal Customer", q25 := none, q50 := none, q75 := none,
     max := some "Retail Customer" },
   { name := "Customer Name", count := some "49998", mean := none, stddev := none,
     min := some "Abdullah Alomary", q25 := none, q50 := none, q75 := none,
     max := some "Zoza Mohamed" },
   { name := "City", count := some "49998", mean := none, stddev := none,
     min := some "Al Khobar", q25 := none, q50 := none, q75 := none,
     max := some "Wadi ad Dawasir" },
   { name := "Customer Gender", count := some "49998", mean := none, stddev := none,
     min := some "Female", q25 := none, q50 := none, q75 := none, max := some "Male" },
   { name := "Employee Name", count := some "49998", mean := none, stddev := none,
     min := some "Abdullateif AlKha...", q25 := none, q50 := none, q75 := none,
     max := some "Yasmina Fouad" },
   { name := "Manager Name", count := some "49998", mean := none, stddev := none,
     min := some "Hany Higazi", q25 := none, q50 := none, q75 := none,
     max := some "Mohamed Allam" },
   { name := "Product Name", count := some "49998", mean := none, stddev := none,
     min := some "4K Dash Cam", q25 := none, q50 := none, q75 := none,
     max := some "Wireless Earbuds" },
   { name := "Product Category", count := some "49998", mean := none, stddev := none,
     min := some "Automotive", q25 := none, q50 := none, q75 := none,
     max := some "Women\x27S Fashion" },
   { name := "Channel", count := some "49998", mean := none, stddev := none,
     min := some "OnLine", q25 := none, q50 := none, q75 := none, max := some "Store" },
   { name := "Customer Satisfaction", count := some "49998", mean := none, stddev := none,
     min := some "High", q25 := none, q50 := none, q75 := none, max := some "Very Low" },
   totalSalesSummary]

/-- The mean of `Total Sales` printed in the recorded summary report, as a rational. -/
def recordedTotalSalesMean : ℚ := 1973.11878475139

/-- The count of `Total Sales` printed in the recorded summary report. -/
def recordedTotalSalesCount : Nat := 49998

/-- The minimum of `Total Sales` printed in the recorded summary report. -/
def recordedTotalSalesMin : Int := 22

/-- The maximum of `Total Sales` printed in the recorded summary report. -/
def recordedTotalSalesMax : Int := 9700

/-! Recorded `explore_data(value_counts=True)` tables for the columns whose
tables the notebook displays in full (no "only showing top 20 rows" footer). -/

/-- Recorded value-count table for `Customer Type`. -/
def recordedCustomerTypeCounts : List (String × Nat) :=
  [("Loyal Customer", 24865), ("Retail Customer", 16739), ("New Customer", 8394)]

/-- Recorded value-count table for `City`. -/
def recordedCityCounts : List (String × Nat) :=
  [("Riyadh", 6901), ("Medina", 5480), ("Tabuk", 5429), ("Buraydah", 5241),
   ("Jeddah", 4548), ("Hafar Al Batin", 4239), ("Mecca", 3992),
   ("Wadi ad Dawasir", 3420), ("Arar", 3227), ("Najran", 3020),
   ("Al Khobar", 2920), ("AlUla", 1581)]

/-- Recorded value-count table for `Customer Gender`. -/
def recordedGenderCounts : List (String × Nat) :=
  [("Male", 27353), ("Female", 22645)]

/-- Recorded value-count table for `Employee Name`. -/
def recordedEmployeeCounts : List (String × Nat) :=
  [("Abdullateif AlKha...", 9401), ("Alaa Khalifa", 9224), ("Ayman Kamal", 8305),
   ("Yasmina Fouad", 8244), ("Mohamed Musallam", 7680), ("Sara Adel", 7144)]

/-- Recorded value-count table for `Manager Name`. -/
def recordedManagerCounts : List (String × Nat) :=
  [("Mohamed Allam", 25325), ("Hany Higazi", 24673)]

/-- Recorded value-count table for `Product Category`. -/
def recordedCategoryCounts : List (String × Nat) :=
  [("Beauty And Person...", 5594), ("Girls\x27 Fashion", 5526),
   ("Boys\x27 Fashion", 5262), ("Men\x27S Fashion", 5110),
   ("Women\x27S Fashion", 5062), ("Automotive", 5053), ("Toys And Games", 4805),
   ("Pet Supplies", 4793), ("Luggage", 4485), ("Electronics", 4308)]

/-- Recorded value-count table for `Channel`. -/
def recordedChannelCounts : List (String × Nat) :=
  [("OnLine", 33242), ("Store", 16756)]

/-- Recorded value-count table for `Customer Satisfaction`. -/
def recordedSatisfactionCounts : List (String × Nat) :=
  [("High", 16783), ("Ok", 13209), ("Very High", 9930), ("Low", 6779),
   ("Very Low", 3297)]

/-- The names of the numeric columns according to the recorded schema. -/
def numericColumns : List String :=
  (recordedSchema.filter (fun fld => decide (fld.dtype = ColType.integer))).map
    SchemaField.name

/-- The population pattern the spec claims for one summary column: numeric
columns populate every statistic; non-numeric ones only count/min/max. -/
def summaryColOk (c : SummaryCol) : Prop :=
  if c.name ∈ numericColumns then
    c.count.isSome ∧ c.mean.isSome ∧ c.stddev.isSome ∧ c.min.isSome ∧
      c.q25.isSome ∧ c.q50.isSome ∧ c.q75.isSome ∧ c.max.isSome
  else
    c.count.isSome ∧ c.min.isSome ∧ c.max.isSome ∧ c.mean = none ∧
      c.stddev = none ∧ c.q25 = none ∧ c.q50 = none ∧ c.q75 = none

instance (c : SummaryCol) : Decidable (summaryColOk c) := by
  unfold summaryColOk
  infer_instance

end RetailForecast

/-! ### Claim theorems -/

/-- C1: In the recorded summary report of `explore_data(summary=True)` on the
sample dataset, the `Total Sales` column has count 49998, mean approximately
1973.12 (printed 1973.11878475139, within 0.005 of 1973.12), min 22 and
max 9700. -/
theorem RetailForecast.totalSales_summary_stats :
    RetailForecast.totalSalesSummary ∈ RetailForecast.recordedSummary ∧
    RetailForecast.totalSalesSummary.count = some "49998" ∧
    RetailForecast.recordedTotalSalesCount = 49998 ∧
    RetailForecast.totalSalesSummary.mean = some "1973.11878475139" ∧
    |RetailForecast.recordedTotalSalesMean - 1973.12| < 1 / 200 ∧
    RetailForecast.totalSalesSummary.min = some "22" ∧
    RetailForecast.recordedTotalSalesMin = 22 ∧
    RetailForecast.totalSalesSummary.max = some "9700" ∧
    RetailForecast.recordedTotalSalesMax = 9700 := by
  refine ⟨?_, rfl, rfl, rfl, ?_, rfl, rfl, rfl, rfl⟩
  · simp [RetailForecast.recordedSummary]
  · rw [abs_sub_lt_iff]
    constructor <;> norm_num [RetailForecast.recordedTotalSalesMean]

/-- C2: the overview row count equals the number of records the loader ingested
(one per non-header line) and the overview column list is the parsed header
row; on the recorded sample run these are 49998 and the fixed 13-column
header. -/
theorem RetailForecast.overview_matches_loader (h : String) (t : List String) :
    RetailForecast.overviewRowCount (RetailForecast.load_csv (h :: t)) = t.length ∧
    RetailForecast.overviewColumns (RetailForecast.load_csv (h :: t)) =
      RetailForecast.splitLine h ∧
    RetailForecast.recordedOverviewRows = 49998 ∧
    RetailForecast.recordedOverviewColumns = RetailForecast.fixedHeader := by
  refine ⟨?_, rfl, rfl, by decide⟩
  simp [RetailForecast.overviewRowCount, RetailForecast.load_csv]

/-- C2 witness: at a concrete three-line file, two records are ingested and
reported. -/
theorem RetailForecast.overview_matches_loader_witness :
    RetailForecast.overviewRowCount (RetailForecast.load_csv ["a,b", "1,2", "3,4"]) = 2 := by
  have hw := (RetailForecast.overview_matches_loader "a,b" ["1,2", "3,4"]).1
  simpa using hw

/-- C3 counterexample: the app name in the recorded loader diagnostic
("Saudi Retail Demand Forecasting") is not the configured
`spark.app_name` ("RetailForecast"). -/
theorem RetailForecast.loader_appName_ne_config :
    RetailForecast.recordedLoaderAppName ≠ RetailForecast.configSparkAppName := by
  decide

/-- C3 (amended): the recorded loader diagnostic names a session app name and
the source path; the path is the configured raw-data path, but the app name is
the session name of the loader itself, not the configured `spark.app_name`. -/
theorem RetailForecast.loader_diagnostic_contents :
    RetailForecast.recordedLoaderMessages =
      ["Spart Session created with app name: " ++ RetailForecast.recordedLoaderAppName,
       "Loading CSV file from: " ++ RetailForecast.recordedLoaderPath] ∧
    RetailForecast.recordedLoaderPath = RetailForecast.configDataRawDir ∧
    RetailForecast.recordedLoaderAppName ≠ RetailForecast.configSparkAppName := by
  exact ⟨rfl, rfl, by decide⟩

/-- C4: the recorded `Channel` value-count table has exactly the two values
OnLine (33,242) and Store (16,756), and their frequencies sum to the recorded
row count 49,998. -/
theorem RetailForecast.channel_two_values_sum_total :
    RetailForecast.recordedChannelCounts.map Prod.fst = ["OnLine", "Store"] ∧
    RetailForecast.recordedChannelCounts.map Prod.snd = [33242, 16756] ∧
    (RetailForecast.recordedChannelCounts.map Prod.snd).sum =
      RetailForecast.recordedOverviewRows ∧
    RetailForecast.recordedOverviewRows = 49998 := by
  exact ⟨rfl, rfl, by decide, rfl⟩

/-- C5: for every frame in which no cell is missing, the null-count report is
zero for every column. -/
theorem RetailForecast.nullCounts_all_zero_of_no_missing (f : RetailForecast.Frame)
    (hf : ∀ r ∈ f.rows, ∀ c ∈ r, c ≠ none) :
    RetailForecast.nullCounts f = List.replicate f.header.length 0 := by
  refine List.eq_replicate_iff.mpr ⟨by simp [RetailForecast.nullCounts], ?_⟩
  intro b hb
  simp only [RetailForecast.nullCounts, List.mem_map, List.mem_range] at hb
  obtain ⟨j, _, rfl⟩ := hb
  rw [RetailForecast.nullCount, List.length_eq_zero, List.filter_eq_nil_iff]
  intro r hr
  simp only [decide_eq_true_eq]
  intro hc
  rcases Nat.lt_or_ge j r.length with hj | hj
  · rw [List.getD_eq_getElem r (some "") hj] at hc
    exact hf r hr _ (List.getElem_mem hj) hc
  · rw [List.getD_eq_default r (some "") hj] at hc
    exact Option.noConfusion hc

/-- C5 witness: a concrete two-column file with no missing cells reports zero
nulls in both columns. -/
theorem RetailForecast.nullCounts_all_zero_witness :
    RetailForecast.nullCounts (RetailForecast.load_csv ["a,b", "1,2"]) = [0, 0] := by
  have hw := RetailForecast.nullCounts_all_zero_of_no_missing
    (RetailForecast.load_csv ["a,b", "1,2"]) (by decide)
  exact hw.trans (by decide)

/-- C6: for every frame whose rows are pairwise distinct, the duplicate-row
count is zero. -/
theorem RetailForecast.duplicateCount_zero_of_nodup (f : RetailForecast.Frame)
    (hf : f.rows.Nodup) :
    RetailForecast.duplicateCount f = 0 := by
  simp [RetailForecast.duplicateCount, List.dedup_eq_self.mpr hf]

/-- C6 witness: a concrete file with two distinct records reports zero
duplicate rows. -/
theorem RetailForecast.duplicateCount_zero_witness :
    RetailForecast.duplicateCount (RetailForecast.load_csv ["a,b", "1,2", "3,4"]) = 0 :=
  RetailForecast.duplicateCount_zero_of_nodup _ (by decide)

/-- C7: for every column value list, the displayed value-count table has at
most 20 rows, is sorted descending by frequency, and pairs each displayed
value with its frequency in the column. -/
theorem RetailForecast.valueCounts_desc_truncated (xs : List RetailForecast.Cell) :
    (RetailForecast.valueCountsDisplayed xs).length ≤ 20 ∧
    List.Sorted RetailForecast.byCountDesc (RetailForecast.valueCountsDisplayed xs) ∧
    ∀ p ∈ RetailForecast.valueCountsDisplayed xs, p.2 = xs.count p.1 := by
  refine ⟨?_, ?_, ?_⟩
  · exact List.length_take_le 20 (RetailForecast.valueCounts xs)
  · exact (List.sorted_insertionSort RetailForecast.byCountDesc _).sublist
      (List.take_sublist 20 (RetailForecast.valueCounts xs))
  · intro p hp
    have h1 : p ∈ RetailForecast.valueCounts xs := List.mem_of_mem_take hp
    have h2 : p ∈ xs.dedup.map (fun v => (v, xs.count v)) :=
      (List.perm_insertionSort RetailForecast.byCountDesc _).mem_iff.mp h1
    obtain ⟨v, hv, rfl⟩ := List.mem_map.mp h2
    rfl

/-- C7 witness: at a concrete column the displayed table is within the 20-row
bound. -/
theorem RetailForecast.valueCounts_desc_truncated_witness :
    (RetailForecast.valueCountsDisplayed [some "a", some "b", some "a"]).length ≤ 20 :=
  (RetailForecast.valueCounts_desc_truncated [some "a", some "b", some "a"]).1

/-- C8: in the recorded summary report, the numeric column has every statistic
populated and every non-numeric column has only count, min and max populated. -/
theorem RetailForecast.summary_population_pattern :
    RetailForecast.recordedSummary.Forall RetailForecast.summaryColOk := by
  decide

/-- C9: for every frame and column index, the value-count frequencies sum to
the row count of the frame; every fully-displayed recorded table sums to 49,998. -/
theorem RetailForecast.valueCounts_sum_total (f : RetailForecast.Frame) (j : Nat) :
    ((RetailForecast.valueCounts (RetailForecast.column f j)).map Prod.snd).sum =
      RetailForecast.overviewRowCount f ∧
    (RetailForecast.recordedCustomerTypeCounts.map Prod.snd).sum = 49998 ∧
    (RetailForecast.recordedCityCounts.map Prod.snd).sum = 49998 ∧
    (RetailForecast.recordedGenderCounts.map Prod.snd).sum = 49998 ∧
    (RetailForecast.recordedEmployeeCounts.map Prod.snd).sum = 49998 ∧
    (RetailForecast.recordedManagerCounts.map Prod.snd).sum = 49998 ∧
    (RetailForecast.recordedCategoryCounts.map Prod.snd).sum = 49998 ∧
    (RetailForecast.recordedChannelCounts.map Prod.snd).sum = 49998 ∧
    (RetailForecast.recordedSatisfactionCounts.map Prod.snd).sum = 49998 := by
  refine ⟨?_, by decide, by decide, by decide, by decide, by decide, by decide,
    by decide, by decide⟩
  have hperm : (RetailForecast.valueCounts (RetailForecast.column f j)).Perm
      ((RetailForecast.column f j).dedup.map
        (fun v => (v, (RetailForecast.column f j).count v))) :=
    List.perm_insertionSort RetailForecast.byCountDesc _
  have hs := (hperm.map Prod.snd).sum_eq
  rw [hs, List.map_map]
  have hc := List.sum_map_count_dedup_eq_length (RetailForecast.column f j)
  simp only [Function.comp_def, RetailForecast.count_cell_congr]
  simpa [RetailForecast.column, RetailForecast.overviewRowCount] using hc

/-- C9 witness: at a concrete two-record file, the value-count frequencies of
the first column sum to the row count 2. -/
theorem RetailForecast.valueCounts_sum_total_witness :
    ((RetailForecast.valueCounts
        (RetailForecast.column (RetailForecast.load_csv ["a,b", "1,2", "3,4"]) 0)).map
      Prod.snd).sum = 2 := by
  have hw := (RetailForecast.valueCounts_sum_total
    (RetailForecast.load_csv ["a,b", "1,2", "3,4"]) 0).1
  exact hw.trans (by decide)

/-- C10: the recorded schema declares all 13 columns nullable (12 string
columns and 1 integer column) even though the recorded null report is zero for
every column; nullability is not tightened by the observed data. -/
theorem RetailForecast.schema_nullable_despite_zero_nulls :
    RetailForecast.recordedSchema.length = 13 ∧
    RetailForecast.recordedSchema.Forall (fun fld => fld.nullable = true) ∧
    (RetailForecast.recordedSchema.filter
      (fun fld => decide (fld.dtype = RetailForecast.ColType.string))).length = 12 ∧
    (RetailForecast.recordedSchema.filter
      (fun fld => decide (fld.dtype = RetailForecast.ColType.integer))).length = 1 ∧
    RetailForecast.recordedNullReport.Forall (fun p => p.2 = 0) ∧
    RetailForecast.recordedNullReport.map Prod.fst =
      RetailForecast.recordedSchema.map RetailForecast.SchemaField.name := by
  exact ⟨rfl, by decide, by decide, by decide, by decide, rfl⟩
